import Mathlib

/-!
Shallow embedding of `src/dashboard.py` (LTA-Test/dashboard-emailing):
a Streamlit dashboard that submits a fixed aggregation query to AWS
Athena, polls the job until a terminal state, materializes the CSV
output from S3, and caches the resulting DataFrame with a 600 s TTL
(`@st.cache_data(ttl=600)` on `load_data`).

External effects (Athena, S3, Streamlit secrets, the key file) are
modelled as explicit environments; the control flow of the script is
translated statement by statement.
-/

namespace Dashboard

/-- Athena query-execution states, as tested on line 90 of the source
(`if status in [SUCCEEDED, FAILED, CANCELLED]` on line 90). -/
inductive JobState where
  | SUBMITTED
  | RUNNING
  | SUCCEEDED
  | FAILED
  | CANCELLED
deriving DecidableEq, Repr

/-- The loop exit condition of the polling loop (line 90). -/
def JobState.isTerminal : JobState → Bool
  | .SUCCEEDED => true
  | .FAILED => true
  | .CANCELLED => true
  | _ => false

/-- Rendering of the state into the error message string of line 99. -/
def JobState.toStr : JobState → String
  | .SUBMITTED => "SUBMITTED"
  | .RUNNING => "RUNNING"
  | .SUCCEEDED => "SUCCEEDED"
  | .FAILED => "FAILED"
  | .CANCELLED => "CANCELLED"

/-- The `Status` block of the query execution: the state plus the optional
`StateChangeReason` field (lines 89 and 100). -/
structure QueryStatus where
  state : JobState
  stateChangeReason : Option String
deriving DecidableEq, Repr

/-- One row of the DataFrame parsed from the Athena output CSV
(columns `Jour`, `Campagne`, `eventType`, `Total`).  The truncated
day is modelled as an abstract day index (`Nat`) carrying the date
order; `Campagne` may be null since
`element_at(mail.tags.CampaignID, 1)` can be absent. -/
structure Row where
  jour : Nat
  campagne : Option String
  eventType : String
  total : Nat
deriving DecidableEq, Repr

/-- The `(Jour, Campagne, eventType)` triple of a row. -/
def Row.triple (r : Row) : Nat × Option String × String :=
  (r.jour, r.campagne, r.eventType)

/-- Environment of one `load_data` execution: the outcome of
`start_query_execution`, the status returned by the n-th
`get_query_execution` call, and the outcome of `get_object` plus
`read_csv`.  `Except.error` models a raised Python exception. -/
structure Env where
  submitRes : Except String String
  statusAt : Nat → Except String QueryStatus
  s3Object : Except String (List Row)

/-- The sleep of line 92: the fixed polling interval, in
milliseconds. -/
def pollIntervalMs : Nat := 500

/-- The polling loop of lines 87-92, with explicit fuel: starting at
poll index `k`, repeatedly fetch the status until it is terminal.
Returns `none` when no terminal state is seen within `fuel` polls
(the Python loop would still be spinning), `some (.error e)` when a
status call raises, and `some (.ok (k, s))` when poll `k` observes
the terminal status `s`. -/
def awaitAux (statusAt : Nat → Except String QueryStatus) :
    Nat → Nat → Option (Except String (Nat × QueryStatus))
  | 0, _ => none
  | fuel + 1, k =>
    match statusAt k with
    | .error e => some (.error e)
    | .ok s =>
      if s.state.isTerminal then some (.ok (k, s))
      else awaitAux statusAt fuel (k + 1)

/-- Await on a job: the polling loop started at the first poll. -/
def await (statusAt : Nat → Except String QueryStatus) (fuel : Nat) :
    Option (Except String (Nat × QueryStatus)) :=
  awaitAux statusAt fuel 0

/-- The materialization step of lines 95-96 (`get_object` +
`read_csv`), taken on a `SUCCEEDED` job. -/
def materialize (env : Env) : Except String (List Row) :=
  env.s3Object

/-- What `load_data` hands back to the script: the returned DataFrame
as a list of rows, plus the error messages written with `st.error`. -/
structure LoadResult where
  df : List Row
  errors : List String
deriving DecidableEq, Repr

/-- Error message of line 104. -/
def errTech (e : String) : String := "Erreur Technique : " ++ e

/-- Error message of line 99. -/
def errAthena (s : JobState) : String := "Erreur Athena : " ++ s.toStr

/-- The body of the `try` block of `load_data` (lines 78-101):
submit, poll, then on success materialize, otherwise report the state
and the `StateChangeReason` (default `Raison inconnue`) and return
an empty DataFrame.  `none` models an unterminated polling loop;
`some (.error e)` an exception escaping the `try` body. -/
def tryBody (env : Env) (fuel : Nat) : Option (Except String LoadResult) :=
  match env.submitRes with
  | .error e => some (.error e)
  | .ok _qid =>
    match await env.statusAt fuel with
    | none => none
    | some (.error e) => some (.error e)
    | some (.ok (_, s)) =>
      if s.state = .SUCCEEDED then
        match materialize env with
        | .error e => some (.error e)
        | .ok rows => some (.ok ⟨rows, []⟩)
      else
        some (.ok ⟨[], [errAthena s.state,
          s.stateChangeReason.getD "Raison inconnue"]⟩)

/-- Function `load_data` (lines 64-105): the `try` body wrapped in the
`except Exception` handler of lines 103-105, which reports the
exception and returns an empty DataFrame. -/
def load_data (env : Env) (fuel : Nat) : Option LoadResult :=
  match tryBody env fuel with
  | none => none
  | some (.error e) => some ⟨[], [errTech e]⟩
  | some (.ok r) => some r

/-! ### The result cache

`load_data` is decorated with `@st.cache_data(ttl=600)` (line 64):
Streamlit memoizes the returned value; a cached value is served while
its age is below the TTL, otherwise the function body runs again and
the fresh value is stored.  `st.cache_data.clear()` (line 161) drops
all entries.  Since `load_data` takes no argument there is a single
cache slot. -/

/-- The `ttl=600` of line 64, in seconds. -/
def TTL : Nat := 600

/-- The cache slot of `@st.cache_data`: absent, or a stored value with
the time (seconds) at which it was computed. -/
structure CacheState where
  entry : Option (LoadResult × Nat)
deriving DecidableEq, Repr

/-- The empty cache (process start, or after `st.cache_data.clear()`). -/
def CacheState.empty : CacheState := ⟨none⟩

/-- Clearing the cache, `st.cache_data.clear()` on line 161: drops all entries. -/
def clearCache (_c : CacheState) : CacheState := CacheState.empty

/-- One call of the cached `load_data` at time `now`: if a stored
value is younger than the TTL it is returned as-is (together with the
time it was fetched) and no remote work happens; otherwise the body
runs against `env` and the fresh value is stored at time `now`.
Returns `((value, fetchedAt), cache after the call, number of
submit-poll-materialize cycles executed)`; `none` models a body whose
polling loop did not terminate within `fuel`. -/
def cachedGet (env : Env) (fuel now : Nat) (c : CacheState) :
    Option ((LoadResult × Nat) × CacheState × Nat) :=
  match c.entry with
  | some (v, t) =>
    if now < t + TTL then some ((v, t), c, 0)
    else
      match load_data env fuel with
      | none => none
      | some r => some ((r, now), ⟨some (r, now)⟩, 1)
  | none =>
    match load_data env fuel with
    | none => none
    | some r => some ((r, now), ⟨some (r, now)⟩, 1)

/-! ### Script startup: credential resolution (lines 16-61)

The script first detects cloud secrets (lines 22-29: any exception
makes `mode_cloud` false), then either builds clients from
`st.secrets` (cloud mode) or reads the local key CSV; if that read
raises, it reports the error and calls `st.stop()` (line 61), which
halts the script before `load_data` ever runs. -/

/-- Environment of the startup phase: whether `st.secrets` is
readable and contains an `aws` section, and the outcome of
`pd.read_csv` on the local key file (access key, secret key). -/
structure BootEnv where
  secretsReadable : Bool
  secretsHasAws : Bool
  localKeyFile : Except String (String × String)
deriving Repr

/-- Lines 22-29: `mode_cloud` is true exactly when reading
`st.secrets` does not raise and the `"aws"` section is present. -/
def mode_cloud (benv : BootEnv) : Bool :=
  benv.secretsReadable && benv.secretsHasAws

/-- Outcome of the startup phase: the script halted at `st.stop()`
with the displayed error messages, or it is running with the given
`mode_cloud` flag and configured clients. -/
inductive BootResult where
  | halted (msgs : List String)
  | running (cloud : Bool)
deriving DecidableEq, Repr

/-- Lines 32-61: in cloud mode the clients are built from the
secrets; otherwise the key CSV is read, and a read failure reports
three error messages and stops the script. -/
def boot (benv : BootEnv) : BootResult :=
  if mode_cloud benv then
    .running true
  else
    match benv.localKeyFile with
    | .ok _keys => .running false
    | .error e =>
      .halted ["❌ ERREUR CRITIQUE (Mode Local)",
        "Impossible de lire le fichier de clés ici : " ++
          "D:\\Business\\Emailing\\SES\\William_admin_accessKeys.csv",
        "Détail : " ++ e]

/-- Outcome of one script run up to and including the `load_data`
call (lines 110-111): either halted during startup, or the load
outcome together with the cache after the call.  `remoteCycles`
counts the submit-poll-materialize cycles executed; every remote call
(submit, status poll, object fetch) happens inside such a cycle, so
`remoteCycles = 0` means no remote call was attempted. -/
structure ScriptOutcome where
  boot : BootResult
  load : Option ((LoadResult × Nat) × CacheState)
  remoteCycles : Nat
deriving Repr

/-- The script from the top through the `load_data` call: credential
resolution, then — only if the script was not stopped — the cached
`load_data`. -/
def runScript (benv : BootEnv) (env : Env) (fuel now : Nat)
    (c : CacheState) : ScriptOutcome :=
  match boot benv with
  | .halted msgs => ⟨.halted msgs, none, 0⟩
  | .running cloud =>
    match cachedGet env fuel now c with
    | none => ⟨.running cloud, none, 1⟩
    | some (v, c2, n) => ⟨.running cloud, some (v, c2), n⟩

/-! ### The remote aggregation (lines 66-76)

The fixed query groups `ses_logs` by truncated day, first campaign
tag, and event type, keeps only the six listed event types, counts
rows per group (`count(*) as Total`), and orders by day descending.
We embed its semantics over an abstract list of log events in which
the `date_trunc`/`element_at` projections are already applied. -/

/-- One `ses_logs` record, reduced to the projections the query
uses (the truncated day as an abstract day index). -/
structure SesEvent where
  day : Nat
  campaignId : Option String
  eventType : String
deriving DecidableEq, Repr

/-- The `WHERE eventType IN (...)` list of line 73. -/
def allowedEventTypes : List String :=
  ["Send", "Delivery", "Open", "Click", "Bounce", "Complaint"]

/-- The `GROUP BY 1, 2, 3` key of an event. -/
def SesEvent.key (e : SesEvent) : Nat × Option String × String :=
  (e.day, e.campaignId, e.eventType)

/-- The events surviving the `WHERE` clause. -/
def keptEvents (logs : List SesEvent) : List SesEvent :=
  logs.filter (fun e => e.eventType ∈ allowedEventTypes)

/-- The output row of one group: its key columns and
`Total = count(*)` of the group. -/
def groupRow (kept : List SesEvent) (k : Nat × Option String × String) : Row :=
  ⟨k.1, k.2.1, k.2.2, (kept.filter (fun e => e.key = k)).length⟩

/-- The grouped rows: one row per distinct key among the kept
events. -/
def groupRows (logs : List SesEvent) : List Row :=
  (((keptEvents logs).map SesEvent.key).dedup).map (groupRow (keptEvents logs))

/-- The full query result: grouped rows ordered by day descending
(`ORDER BY 1 DESC`), as a stable sort on the day column. -/
def queryResult (logs : List SesEvent) : List Row :=
  (groupRows logs).insertionSort (fun a b => b.jour ≤ a.jour)

/-! ### Presentation layer: filter, KPIs, rates (lines 125-148) -/

/-- Pandas equality of a possibly-null `Campagne` cell with a scalar:
a null (NaN) cell compares unequal to everything. -/
def pandasEqCamp : Option String → String → Bool
  | some x, c => x = c
  | none, _ => false

/-- Lines 128-131: the displayed row set — all rows for `Toutes`,
otherwise the rows whose `Campagne` equals the selected value. -/
def df_filtered (choix : String) (df : List Row) : List Row :=
  if choix ≠ "Toutes" then df.filter (fun r => pandasEqCamp r.campagne choix)
  else df

/-- The KPI lookup `kpi_df.get(ev, 0)` after grouping by event type and summing `Total`
(lines 134-140): the sum of `Total` over the rows of the given event
type, `0` when there are none. -/
def kpiSum (df : List Row) (ev : String) : Nat :=
  ((df.filter (fun r => r.eventType = ev)).map Row.total).sum

/-- Python division, which faults on a zero denominator. -/
def pyDiv (a b : ℚ) : Option ℚ :=
  if b = 0 then none else some (a / b)

/-- The floor of a rational, written so that it evaluates by kernel
reduction. -/
def ratFloor (q : ℚ) : ℤ := q.num.fdiv q.den

/-- Python `round` to an integer: round-half-to-even.  Python floats
are modelled as exact rationals. -/
def pyRoundInt (q : ℚ) : ℤ :=
  let f := ratFloor q
  let r := q - f
  if r < 1 / 2 then f
  else if 1 / 2 < r then f + 1
  else if f % 2 = 0 then f else f + 1

/-- Python `round(x, 2)`: round-half-to-even at two decimals. -/
def pyRound2 (q : ℚ) : ℚ :=
  (pyRoundInt (q * 100) : ℚ) / 100

/-- Line 142: `round((total_open / total_sent * 100), 2) if
total_sent > 0 else 0`, with the division modelled as fallible
(`none` = division fault). -/
def taux_ouverture (df : List Row) : Option ℚ :=
  let total_sent : ℚ := kpiSum df "Send"
  let total_open : ℚ := kpiSum df "Open"
  if total_sent > 0 then
    (pyDiv total_open total_sent).map (fun q => pyRound2 (q * 100))
  else
    some 0

/-! ## Helper lemmas -/

/-- When the engine reports statuses without raising and some poll
`N` is terminal, the polling loop started at `start` finds the first
terminal poll, provided it has enough fuel. -/
theorem awaitAux_finds (s : Nat → QueryStatus) :
    ∀ (fuel start N : Nat), start ≤ N → (s N).state.isTerminal = true →
      N < start + fuel →
      ∃ k, awaitAux (fun n => Except.ok (s n)) fuel start =
          some (.ok (k, s k)) ∧
        start ≤ k ∧ k ≤ N ∧ (s k).state.isTerminal = true ∧
        ∀ j, start ≤ j → j < k → (s j).state.isTerminal = false := by
  intro fuel
  induction fuel with
  | zero => intro start N h1 _ h3; omega
  | succ fuel ih =>
    intro start N h1 h2 h3
    cases hterm : (s start).state.isTerminal with
    | true =>
      refine ⟨start, ?_, Nat.le_refl _, h1, hterm, ?_⟩
      · simp [awaitAux, hterm]
      · intro j hj1 hj2; omega
    | false =>
      have hne : start ≠ N := by
        intro h; rw [h, h2] at hterm; exact Bool.true_eq_false.mp hterm
      obtain ⟨k, hk, hk1, hk2, hk3, hk4⟩ :=
        ih (start + 1) N (by omega) h2 (by omega)
      refine ⟨k, ?_, by omega, hk2, hk3, ?_⟩
      · simpa [awaitAux, hterm] using hk
      · intro j hj1 hj2
        rcases Nat.eq_or_lt_of_le hj1 with heq | hlt
        · rw [← heq]; exact hterm
        · exact hk4 j hlt hj2

/-! ## Claim theorems -/

/-- C4: given a query engine that reports (without raising) a
terminal state at some finite poll index `N` — including `N = 0` —
the polling loop of lines 87-92 terminates: `Await` returns the first
terminal status observed, reached after `k ≤ N` polls all of whose
predecessors were non-terminal, the loop having slept a fixed
`pollIntervalMs = 500` between consecutive polls. -/
theorem await_reaches_terminal (s : Nat → QueryStatus) (N fuel : Nat)
    (hterm : (s N).state.isTerminal = true) (hfuel : N < fuel) :
    ∃ k, await (fun n => Except.ok (s n)) fuel = some (.ok (k, s k)) ∧
      k ≤ N ∧ (s k).state.isTerminal = true ∧
      ∀ j < k, (s j).state.isTerminal = false := by
  obtain ⟨k, hk, _, hk2, hk3, hk4⟩ :=
    awaitAux_finds s fuel 0 N (Nat.zero_le _) hterm (by omega)
  exact ⟨k, hk, hk2, hk3, fun j hj => hk4 j (Nat.zero_le _) hj⟩

/-- A mock engine that is SUBMITTED, then RUNNING, then SUCCEEDED
from the third poll on. -/
def mockStatus : Nat → QueryStatus := fun n =>
  if n = 0 then ⟨.SUBMITTED, none⟩
  else if n = 1 then ⟨.RUNNING, none⟩
  else ⟨.SUCCEEDED, none⟩

/-- Witness for C4 at the mock engine with `N = 2` and fuel 5. -/
theorem await_reaches_terminal_witness :
    (mockStatus 2).state.isTerminal = true ∧ 2 < 5 ∧
    ∃ k, await (fun n => Except.ok (mockStatus n)) 5 =
        some (.ok (k, mockStatus k)) ∧
      k ≤ 2 ∧ (mockStatus k).state.isTerminal = true ∧
      ∀ j < k, (mockStatus j).state.isTerminal = false :=
  ⟨by decide, by decide,
    await_reaches_terminal mockStatus 2 5 (by decide) (by decide)⟩

/-- C3: on a cold cache, `Get` runs one submit-poll-materialize cycle
and stores the result at time `t1`; a second call at any `t2` inside
the TTL window — whatever the remote world looks like then — returns
the stored value with the same fetch time and runs zero additional
cycles, leaving the cache untouched; a call after expiry runs exactly
one new cycle and stores the fresh value at `t2`. -/
theorem cache_freshness_and_expiry
    (env env2 : Env) (fuel fuel2 t1 t2 : Nat) (r : LoadResult)
    (h : load_data env fuel = some r) :
    cachedGet env fuel t1 CacheState.empty =
      some ((r, t1), ⟨some (r, t1)⟩, 1) ∧
    (t2 < t1 + TTL →
      cachedGet env2 fuel2 t2 ⟨some (r, t1)⟩ =
        some ((r, t1), ⟨some (r, t1)⟩, 0)) ∧
    (t1 + TTL ≤ t2 → ∀ r2, load_data env2 fuel2 = some r2 →
      cachedGet env2 fuel2 t2 ⟨some (r, t1)⟩ =
        some ((r2, t2), ⟨some (r2, t2)⟩, 1)) := by
  refine ⟨?_, ?_, ?_⟩
  · simp [cachedGet, CacheState.empty, h]
  · intro hlt
    simp [cachedGet, hlt]
  · intro hge r2 h2
    have hnot : ¬ t2 < t1 + TTL := by omega
    simp [cachedGet, hnot, h2]

/-- A concrete environment whose job succeeds at the first poll with
a one-row output object. -/
def envOk : Env :=
  ⟨.ok "qid-1", fun _ => .ok ⟨.SUCCEEDED, none⟩,
    .ok [⟨1, some "X", "Send", 100⟩]⟩

/-- The result `load_data` produces in `envOk`. -/
def rOk : LoadResult := ⟨[⟨1, some "X", "Send", 100⟩], []⟩

/-- Witness for C3 at `envOk`: first call at time 0, second at
time 10 (inside the 600 s TTL), third case at time 10 vacuous. -/
theorem cache_freshness_and_expiry_witness :
    load_data envOk 1 = some rOk ∧
    (cachedGet envOk 1 0 CacheState.empty =
        some ((rOk, 0), ⟨some (rOk, 0)⟩, 1) ∧
      (10 < 0 + TTL →
        cachedGet envOk 1 10 ⟨some (rOk, 0)⟩ =
          some ((rOk, 0), ⟨some (rOk, 0)⟩, 0)) ∧
      (0 + TTL ≤ 10 → ∀ r2, load_data envOk 1 = some r2 →
        cachedGet envOk 1 10 ⟨some (rOk, 0)⟩ =
          some ((r2, 10), ⟨some (r2, 10)⟩, 1))) :=
  ⟨by decide, cache_freshness_and_expiry envOk envOk 1 1 0 10 rOk (by decide)⟩

/-- C5: after `st.cache_data.clear()` the next `Get` always runs a
fresh submit-poll-materialize cycle and stores its result, no matter
what the previous cache held and whether its TTL had expired. -/
theorem invalidate_then_get (env : Env) (fuel now : Nat)
    (c : CacheState) (r : LoadResult)
    (h : load_data env fuel = some r) :
    cachedGet env fuel now (clearCache c) =
      some ((r, now), ⟨some (r, now)⟩, 1) := by
  simp [cachedGet, clearCache, CacheState.empty, h]

/-- Witness for C5: the dropped entry was stored at time 0 and is
still fresh at time 1, yet the call after clearing runs a cycle. -/
theorem invalidate_then_get_witness :
    load_data envOk 1 = some rOk ∧
    cachedGet envOk 1 1 (clearCache ⟨some (rOk, 0)⟩) =
      some ((rOk, 1), ⟨some (rOk, 1)⟩, 1) :=
  ⟨by decide, invalidate_then_get envOk 1 1 ⟨some (rOk, 0)⟩ rOk (by decide)⟩

/-- An environment whose job fails at the first poll with the reason
of the spec scenario. -/
def envFailedJob : Env :=
  ⟨.ok "qid-2", fun _ => .ok ⟨.FAILED, some "Query exceeded limit"⟩,
    .error "unused"⟩

/-- C1 counterexample: run `Get` on a cold cache in an environment
whose job reaches FAILED with reason `Query exceeded limit`.  The
claim says the cache is not populated; in fact the call writes an
entry (holding the empty-DataFrame result `load_data` returned), so
the cache slot is no longer empty. -/
theorem failed_job_populates_cache_cex :
    (cachedGet envFailedJob 1 0 CacheState.empty).map
      (fun x => x.2.1.entry) ≠ some none := by decide

/-- C1 (amended): when the job reaches FAILED with a reason,
`load_data` displays the state and that reason as error messages and
returns an empty DataFrame; the cached `Get` stores exactly this
empty result — so no non-empty ResultSet is cached, but the cache is
populated (with the empty result) rather than left empty. -/
theorem get_on_failed_job (env : Env) (fuel now k : Nat)
    (qid reason : String)
    (hsub : env.submitRes = .ok qid)
    (hawait : await env.statusAt fuel = some (.ok (k, ⟨.FAILED, some reason⟩))) :
    cachedGet env fuel now CacheState.empty =
      some (((⟨[], [errAthena .FAILED, reason]⟩ : LoadResult), now),
        ⟨some (⟨[], [errAthena .FAILED, reason]⟩, now)⟩, 1) := by
  simp [cachedGet, CacheState.empty, load_data, tryBody, hsub, hawait]

/-- Witness for the amended C1 at `envFailedJob`. -/
theorem get_on_failed_job_witness :
    envFailedJob.submitRes = .ok "qid-2" ∧
    await envFailedJob.statusAt 1 =
      some (.ok (0, ⟨.FAILED, some "Query exceeded limit"⟩)) ∧
    cachedGet envFailedJob 1 0 CacheState.empty =
      some (((⟨[], [errAthena .FAILED, "Query exceeded limit"]⟩ : LoadResult), 0),
        ⟨some (⟨[], [errAthena .FAILED, "Query exceeded limit"]⟩, 0)⟩, 1) :=
  ⟨rfl, rfl,
    get_on_failed_job envFailedJob 1 0 0 "qid-2" "Query exceeded limit" rfl rfl⟩

/-- An environment whose job SUCCEEDED but whose output object is
absent: the S3 fetch raises. -/
def envMissingObject : Env :=
  ⟨.ok "qid-3", fun _ => .ok ⟨.SUCCEEDED, none⟩,
    .error "NoSuchKey: the output object does not exist"⟩

/-- C2 counterexample: run `Get` on a cold cache in an environment
where the job SUCCEEDED but the output object is absent.  The claim
says the cache remains unchanged; in fact the call writes an entry
(holding the empty-DataFrame result), so the empty cache did not stay
empty. -/
theorem missing_object_changes_cache_cex :
    (cachedGet envMissingObject 1 0 CacheState.empty).map
      (fun x => x.2.1.entry) ≠ some none := by decide

/-- C2 (amended): when the job state is SUCCEEDED but the output
object is absent, the materialization step raises; `load_data`
catches the exception, displays it, and returns an empty DataFrame,
and the cached `Get` stores that empty result — the cache does not
remain unchanged, but no non-empty or partial ResultSet is written. -/
theorem get_on_missing_object (env : Env) (fuel now k : Nat)
    (qid e : String) (rsn : Option String)
    (hsub : env.submitRes = .ok qid)
    (hawait : await env.statusAt fuel = some (.ok (k, ⟨.SUCCEEDED, rsn⟩)))
    (hobj : env.s3Object = .error e) :
    materialize env = .error e ∧
    cachedGet env fuel now CacheState.empty =
      some (((⟨[], [errTech e]⟩ : LoadResult), now),
        ⟨some (⟨[], [errTech e]⟩, now)⟩, 1) := by
  constructor
  · simpa [materialize] using hobj
  · simp [cachedGet, CacheState.empty, load_data, tryBody, hsub, hawait,
      materialize, hobj]

/-- Witness for the amended C2 at `envMissingObject`. -/
theorem get_on_missing_object_witness :
    envMissingObject.submitRes = .ok "qid-3" ∧
    await envMissingObject.statusAt 1 =
      some (.ok (0, ⟨.SUCCEEDED, none⟩)) ∧
    envMissingObject.s3Object = .error "NoSuchKey: the output object does not exist" ∧
    (materialize envMissingObject =
        .error "NoSuchKey: the output object does not exist" ∧
      cachedGet envMissingObject 1 0 CacheState.empty =
        some (((⟨[], [errTech "NoSuchKey: the output object does not exist"]⟩ : LoadResult), 0),
          ⟨some (⟨[], [errTech "NoSuchKey: the output object does not exist"]⟩, 0)⟩, 1)) :=
  ⟨rfl, rfl, rfl,
    get_on_missing_object envMissingObject 1 0 0 "qid-3"
      "NoSuchKey: the output object does not exist" none rfl rfl rfl⟩

/-- C9: any exception escaping the try body — remote rejection at
submit, a raising status poll, a missing output object, a parse
failure — is caught by the handler of lines 103-105: `load_data`
returns the empty DataFrame with the diagnostic message instead of
propagating the exception. -/
theorem load_data_catches_exceptions (env : Env) (fuel : Nat) (e : String)
    (h : tryBody env fuel = some (.error e)) :
    load_data env fuel = some ⟨[], [errTech e]⟩ := by
  simp [load_data, h]

/-- An environment in which the submit call itself raises. -/
def envSubmitRaises : Env :=
  ⟨.error "EndpointConnectionError: could not connect",
    fun _ => .ok ⟨.SUCCEEDED, none⟩, .ok []⟩

/-- Witness for C9 at an environment whose submit call raises. -/
theorem load_data_catches_exceptions_witness :
    tryBody envSubmitRaises 1 =
      some (.error "EndpointConnectionError: could not connect") ∧
    load_data envSubmitRaises 1 =
      some ⟨[], [errTech "EndpointConnectionError: could not connect"]⟩ :=
  ⟨rfl, load_data_catches_exceptions envSubmitRaises 1
    "EndpointConnectionError: could not connect" rfl⟩

/-- C8: when no usable credentials exist — cloud secrets absent or
without an `aws` section, and the local key file unreadable — the
script halts at `st.stop()` during startup: the boot outcome is
`halted` carrying the diagnostic, and zero submit-poll-materialize
cycles (hence no submit, poll, or object-fetch call) are attempted. -/
theorem credential_failure_halts (benv : BootEnv) (env : Env)
    (fuel now : Nat) (c : CacheState) (e : String)
    (hcloud : mode_cloud benv = false)
    (hkeys : benv.localKeyFile = .error e) :
    (runScript benv env fuel now c).remoteCycles = 0 ∧
    ∃ msgs, (runScript benv env fuel now c).boot = .halted msgs ∧
      ("Détail : " ++ e) ∈ msgs := by
  constructor
  · simp [runScript, boot, hcloud, hkeys]
  · refine ⟨["❌ ERREUR CRITIQUE (Mode Local)",
      "Impossible de lire le fichier de clés ici : " ++
        "D:\\Business\\Emailing\\SES\\William_admin_accessKeys.csv",
      "Détail : " ++ e], ?_, ?_⟩
    · simp [runScript, boot, hcloud, hkeys]
    · simp

/-- A startup environment with no secrets and an unreadable key
file. -/
def benvNoCreds : BootEnv :=
  ⟨false, false, .error "No such file or directory"⟩

/-- Witness for C8 at `benvNoCreds`. -/
theorem credential_failure_halts_witness :
    mode_cloud benvNoCreds = false ∧
    benvNoCreds.localKeyFile = .error "No such file or directory" ∧
    ((runScript benvNoCreds envOk 1 0 CacheState.empty).remoteCycles = 0 ∧
      ∃ msgs, (runScript benvNoCreds envOk 1 0 CacheState.empty).boot =
          .halted msgs ∧
        ("Détail : " ++ "No such file or directory") ∈ msgs) :=
  ⟨rfl, rfl,
    credential_failure_halts benvNoCreds envOk 1 0 CacheState.empty
      "No such file or directory" rfl rfl⟩

/-- The key triple of a group row is its key. -/
theorem triple_groupRow (kept : List SesEvent)
    (k : Nat × Option String × String) :
    Row.triple (groupRow kept k) = k := rfl

/-- The rows the remote aggregation produces carry pairwise distinct
`(Jour, Campagne, eventType)` triples. -/
theorem queryResult_triples_nodup (logs : List SesEvent) :
    ((queryResult logs).map Row.triple).Nodup := by
  have hperm : ((queryResult logs).map Row.triple).Perm
      ((groupRows logs).map Row.triple) :=
    (List.perm_insertionSort _ _).map _
  have hnodup : ((groupRows logs).map Row.triple).Nodup := by
    unfold groupRows
    rw [List.map_map]
    have hcomp : Row.triple ∘ groupRow (keptEvents logs) = id :=
      funext fun k => rfl
    rw [hcomp, List.map_id]
    exact List.nodup_dedup _
  exact (hperm.nodup_iff).mpr hnodup

/-- C6: whenever the output object holds the result of the grouped
aggregation (which the `GROUP BY` of lines 66-76 guarantees on the
remote side), any DataFrame `load_data` returns has no duplicate
`(Jour, Campagne, eventType)` triple — no local re-aggregation is
ever needed. -/
theorem materialized_triples_unique (env : Env) (fuel : Nat)
    (logs : List SesEvent) (r : LoadResult)
    (hobj : env.s3Object = .ok (queryResult logs))
    (h : load_data env fuel = some r) :
    (r.df.map Row.triple).Nodup := by
  unfold load_data tryBody at h
  cases hsub : env.submitRes with
  | error e =>
    rw [hsub] at h
    simp at h
    simp [← h]
  | ok qid =>
    rw [hsub] at h
    cases haw : await env.statusAt fuel with
    | none => rw [haw] at h; simp at h
    | some x =>
      rw [haw] at h
      cases x with
      | error e =>
        simp at h
        simp [← h]
      | ok p =>
        obtain ⟨k, s⟩ := p
        by_cases hs : s.state = JobState.SUCCEEDED
        · simp [hs, materialize, hobj] at h
          simp [← h]
          exact queryResult_triples_nodup logs
        · simp [hs] at h
          simp [← h]

/-- A concrete event log with a duplicate key, one event of another
day, and one event filtered out by the `WHERE` clause. -/
def logsC6 : List SesEvent :=
  [⟨2, some "X", "Send"⟩, ⟨1, some "X", "Send"⟩, ⟨1, some "X", "Send"⟩,
   ⟨1, some "X", "Open"⟩, ⟨1, none, "Rendering"⟩]

/-- An environment whose output object is exactly the aggregation of
`logsC6`. -/
def envC6 : Env :=
  ⟨.ok "qid-4", fun _ => .ok ⟨.SUCCEEDED, none⟩, .ok (queryResult logsC6)⟩

/-- Witness for C6 at `envC6`. -/
theorem materialized_triples_unique_witness :
    envC6.s3Object = .ok (queryResult logsC6) ∧
    load_data envC6 1 = some ⟨queryResult logsC6, []⟩ ∧
    (((⟨queryResult logsC6, []⟩ : LoadResult)).df.map Row.triple).Nodup :=
  ⟨rfl, rfl, materialized_triples_unique envC6 1 logsC6 _ rfl rfl⟩

/-- Pandas equality against a scalar agrees with propositional
equality with the non-null cell. -/
theorem pandasEqCamp_eq (o : Option String) (c : String) :
    pandasEqCamp o c = decide (o = some c) := by
  cases o with
  | none => simp [pandasEqCamp]
  | some x => simp [pandasEqCamp]

/-- C10: selecting `Toutes` displays the loaded row set unchanged,
and selecting a campaign name displays exactly the rows whose
`Campagne` cell equals it (null cells match nothing); the loaded
DataFrame itself is left intact — the embedding of lines 128-131 is a
pure selection producing a new row set. -/
theorem df_filtered_correct (df : List Row) (choix : String)
    (hne : choix ≠ "Toutes") :
    df_filtered "Toutes" df = df ∧
    df_filtered choix df = df.filter (fun r => r.campagne = some choix) := by
  constructor
  · simp [df_filtered]
  · simp only [df_filtered, if_pos hne]
    refine List.filter_congr fun r _ => ?_
    rw [pandasEqCamp_eq]

/-- A loaded DataFrame with two campaigns and a null cell. -/
def dfC10 : List Row :=
  [⟨2, some "X", "Send", 5⟩, ⟨2, some "Y", "Send", 7⟩,
   ⟨1, some "X", "Open", 2⟩, ⟨1, none, "Send", 3⟩]

/-- Witness for C10 at `dfC10`, selecting campaign `X`. -/
theorem df_filtered_correct_witness :
    "X" ≠ "Toutes" ∧
    (df_filtered "Toutes" dfC10 = dfC10 ∧
      df_filtered "X" dfC10 =
        dfC10.filter (fun r => r.campagne = some "X")) :=
  ⟨by decide, df_filtered_correct dfC10 "X" (by decide)⟩

/-- A filtered row set with a Send total of 3 and an Open total of
1. -/
def dfThirds : List Row :=
  [⟨1, some "X", "Send", 3⟩, ⟨1, some "X", "Open", 1⟩]

/-- C7 counterexample: with 1 open out of 3 sends the exact value
`Open/Send*100` is `100/3 = 33.333...`, but line 142 rounds to two
decimals, so the code reports `33.33`; the displayed open rate is not
equal to `Open/Send*100`. -/
theorem taux_ouverture_rounds_cex :
    taux_ouverture dfThirds ≠ some ((1 : ℚ) / 3 * 100) := by
  norm_num [taux_ouverture, pyDiv, pyRound2, pyRoundInt, ratFloor,
    show kpiSum dfThirds "Send" = 3 from rfl,
    show kpiSum dfThirds "Open" = 1 from rfl,
    show Int.fdiv 10000 3 = 3333 from by decide]

/-- C7 (amended): for every filtered row set the open rate is
computed without a division fault — the guard of line 142 returns `0`
whenever the Send total is zero (in particular when there are no Send
rows), and when the Send total is positive the reported rate is
`Open/Send*100` rounded to two decimal places. -/
theorem taux_ouverture_spec (df : List Row) :
    ∃ q, taux_ouverture df = some q ∧
      (0 < kpiSum df "Send" →
        q = pyRound2 ((kpiSum df "Open" : ℚ) / (kpiSum df "Send" : ℚ) * 100)) ∧
      (kpiSum df "Send" = 0 → q = 0) := by
  by_cases h : 0 < kpiSum df "Send"
  · have hq : (0 : ℚ) < (kpiSum df "Send" : ℚ) := by exact_mod_cast h
    have hne : (kpiSum df "Send" : ℚ) ≠ 0 := ne_of_gt hq
    refine ⟨pyRound2 ((kpiSum df "Open" : ℚ) / (kpiSum df "Send" : ℚ) * 100),
      ?_, fun _ => rfl, fun h0 => absurd h0 (by omega)⟩
    simp [taux_ouverture, pyDiv, hq, hne]
  · have h0 : kpiSum df "Send" = 0 := by omega
    have hq : ¬ (0 : ℚ) < (kpiSum df "Send" : ℚ) := by
      rw [h0]; norm_num
    refine ⟨0, ?_, fun hpos => absurd hpos h, fun _ => rfl⟩
    simp [taux_ouverture, hq]

/-- The spec scenario row set: 100 sends and 40 opens on one day. -/
def dfScenario : List Row :=
  [⟨1, some "X", "Send", 100⟩, ⟨1, some "X", "Open", 40⟩]

/-- Witness for the amended C7 at the spec scenario, together with
the concrete evaluation: the reported rate is exactly 40. -/
theorem taux_ouverture_spec_witness :
    (∃ q, taux_ouverture dfScenario = some q ∧
      (0 < kpiSum dfScenario "Send" →
        q = pyRound2 ((kpiSum dfScenario "Open" : ℚ) /
          (kpiSum dfScenario "Send" : ℚ) * 100)) ∧
      (kpiSum dfScenario "Send" = 0 → q = 0)) ∧
    taux_ouverture dfScenario = some 40 :=
  ⟨taux_ouverture_spec dfScenario, by
    norm_num [taux_ouverture, pyDiv, pyRound2, pyRoundInt, ratFloor,
      show kpiSum dfScenario "Send" = 100 from rfl,
      show kpiSum dfScenario "Open" = 40 from rfl,
      show Int.fdiv 4000 1 = 4000 from by decide]⟩

end Dashboard
